import Mathlib

/-!
Verification of the saga vacation-booking repository.

The embedding models, from the source:

* shared.py — the BookVacationInput dataclass;
* saga_workflows.py — BookWorkflow.run: the try block pushes a compensation
  and then executes each forward activity (car, hotel, flight); the except
  clause runs every pushed compensation in reverse and returns the string
  "Voyage cancelled";
* workflows.py — BookingWorkflow.run: an identical try block, but the except
  clause catches only ActivityError and returns a status dict, and any other
  exception propagates;
* the Temporal retry policies attached to each execute_activity call, as a
  retry loop over per-attempt results;
* run_workflow.py — the response assembly of the book_vacation handler,
  with Python str.split modelled over lists of characters.

A workflow execution is driven by an environment giving the terminal outcome
of each forward activity (the value returned by execute_activity, or the
exception it raises after its retry policy gives up).  Compensation calls run
under the default retry policy, which has no non-retryable error types and an
unbounded attempt count, so a compensation call never raises a terminal
failure to the workflow; the model records its invocation as an event.
Each run returns its result together with a trace of push, forward and
compensate events, over which the ordering claims are stated.
-/

namespace Saga

/-- The BookVacationInput dataclass from shared.py. -/
structure BookVacationInput where
  book_user_id : String
  book_car_id : String
  book_hotel_id : String
  book_flight_id : String
  attempts : Nat
  deriving DecidableEq

/-- The six activities registered with the worker in run_worker.py. -/
inductive Activity where
  | book_car
  | book_hotel
  | book_flight
  | undo_book_car
  | undo_book_hotel
  | undo_book_flight
  deriving DecidableEq

/-- A Python exception value, modelled by its class name and its message.
The class name is what an except clause matches on. -/
structure PyExc where
  cls : String
  msg : String
  deriving DecidableEq

/-- Terminal outcome of one execute_activity call as seen by the workflow
body: either the returned confirmation string, or the exception raised after
the retry policy of the call gives up. -/
inductive StepOutcome where
  | ok (confirmation : String)
  | exn (e : PyExc)
  deriving DecidableEq

/-- Events recorded while a workflow runs: a compensation is appended to the
compensations list, a forward activity call completes with an outcome, or a
compensation activity is executed during rollback. -/
inductive Event where
  | push (a : Activity)
  | forward (a : Activity) (r : StepOutcome)
  | compensate (a : Activity)
  deriving DecidableEq

/-- Environment of one run: the terminal outcome execute_activity delivers
for each forward activity. -/
structure Env where
  book_car : StepOutcome
  book_hotel : StepOutcome
  book_flight : StepOutcome
  deriving DecidableEq

/-- State of the running workflow body: the accumulated output string, the
compensations list, and the trace of events so far. -/
structure WfState where
  output : String
  compensations : List Activity
  trace : List Event
  deriving DecidableEq

/-- One step of the try block shared by both workflow bodies:
compensations.append(comp), then output += await execute_activity(step).
On failure the raised exception is returned together with the state reached,
for the except clause. -/
def tryStep (comp step : Activity) (r : StepOutcome) (s : WfState) :
    Except (PyExc × WfState) WfState :=
  let s1 : WfState := ⟨s.output, s.compensations ++ [comp], s.trace ++ [Event.push comp]⟩
  match r with
  | .ok c =>
      .ok ⟨s1.output ++ c, s1.compensations, s1.trace ++ [Event.forward step (.ok c)]⟩
  | .exn e =>
      .error (e, ⟨s1.output, s1.compensations, s1.trace ++ [Event.forward step (.exn e)]⟩)

/-- The try block of BookWorkflow.run (saga_workflows.py lines 39 to 68):
append undo_book_car and run book_car, append undo_book_hotel and run
book_hotel, append undo_book_flight and run book_flight, concatenating the
outputs. -/
def BookTryBody (env : Env) : Except (PyExc × WfState) WfState :=
  (tryStep .undo_book_car .book_car env.book_car ⟨"", [], []⟩).bind
    (fun s => (tryStep .undo_book_hotel .book_hotel env.book_hotel s).bind
      (fun s => tryStep .undo_book_flight .book_flight env.book_flight s))

/-- The try block of BookingWorkflow.run (workflows.py lines 38 to 66); it is
the same statement sequence as the try block of BookWorkflow.run. -/
def BookingTryBody (env : Env) : Except (PyExc × WfState) WfState :=
  (tryStep .undo_book_car .book_car env.book_car ⟨"", [], []⟩).bind
    (fun s => (tryStep .undo_book_hotel .book_hotel env.book_hotel s).bind
      (fun s => tryStep .undo_book_flight .book_flight env.book_flight s))

/-- The rollback loop: for compensation in reversed(compensations), await
execute_activity(compensation). -/
def rollbackEvents (compensations : List Activity) : List Event :=
  compensations.reverse.map Event.compensate

/-- BookWorkflow.run from saga_workflows.py.  The except Exception clause
catches every modelled exception (every modelled exception class derives from
Exception), runs the rollback loop and returns "Voyage cancelled". -/
def BookWorkflow_run (env : Env) : String × List Event :=
  match BookTryBody env with
  | .ok s => (s.output, s.trace)
  | .error (_, s) => ("Voyage cancelled", s.trace ++ rollbackEvents s.compensations)

/-- Result value of BookingWorkflow.run: the status dict it returns, either
status success with the message, or status failure with str(e). -/
inductive BookingResult where
  | success (message : String)
  | failure (error : String)
  deriving DecidableEq

/-- Python str(e) for a modelled exception. -/
def pyStr (e : PyExc) : String := e.msg

/-- BookingWorkflow.run from workflows.py.  The except ActivityError clause
catches only exceptions of class ActivityError; any other exception
propagates out of run, modelled by the Except.error result. -/
def BookingWorkflow_run (env : Env) : Except PyExc BookingResult × List Event :=
  match BookingTryBody env with
  | .ok s => (.ok (.success s.output), s.trace)
  | .error (e, s) =>
      if e.cls = "ActivityError" then
        (.ok (.failure (pyStr e)), s.trace ++ rollbackEvents s.compensations)
      else
        (.error e, s.trace)

/-- The compensations pushed in a trace, in push order. -/
def pushes (t : List Event) : List Activity :=
  t.filterMap fun e =>
    match e with
    | .push a => some a
    | _ => none

/-- The forward activities attempted in a trace, in order. -/
def attempted (t : List Event) : List Activity :=
  t.filterMap fun e =>
    match e with
    | .forward a _ => some a
    | _ => none

/-- The forward activities that completed successfully in a trace. -/
def succeeded (t : List Event) : List Activity :=
  t.filterMap fun e =>
    match e with
    | .forward a (.ok _) => some a
    | _ => none

/-- The compensation activities executed during rollback, in order. -/
def compensates (t : List Event) : List Activity :=
  t.filterMap fun e =>
    match e with
    | .compensate a => some a
    | _ => none

/-- The compensation activity matching a forward activity. -/
def compensationOf : Activity → Activity
  | .book_car => .undo_book_car
  | .book_hotel => .undo_book_hotel
  | .book_flight => .undo_book_flight
  | a => a

/-- The forward activity matching a compensation activity. -/
def stepOf : Activity → Activity
  | .undo_book_car => .book_car
  | .undo_book_hotel => .book_hotel
  | .undo_book_flight => .book_flight
  | a => a

/-- Whether an event is a rollback compensation call. -/
def isCompEvent : Event → Bool
  | .compensate _ => true
  | _ => false

/-- The push and forward events of a trace, with rollback events removed. -/
def pushForwardEvents (t : List Event) : List Event :=
  t.filter fun e => !(isCompEvent e)

/-- Scans a trace and checks that every push event is immediately followed by
the forward event of the matching step: each compensation is registered
immediately before its forward activity is invoked. -/
def pushImmediatelyBefore : List Event → Bool
  | [] => true
  | [Event.push _] => false
  | Event.push c :: e :: rest =>
      match e with
      | .forward s _ => decide (compensationOf s = c) && pushImmediatelyBefore rest
      | _ => false
  | _ :: rest => pushImmediatelyBefore rest

/-- Result of one attempt of an activity: the returned confirmation string,
or the type and message of the exception the attempt raised.  A timed-out
attempt counts as a raising attempt of a retryable type. -/
inductive AttemptResult where
  | ok (confirmation : String)
  | raise (ty : String) (msg : String)
  deriving DecidableEq

/-- The retry policy fields the workflows set on execute_activity:
maximum_attempts (0 means unbounded, the Temporal default) and
non_retryable_error_types. -/
structure RetryPolicy where
  maximumAttempts : Nat
  nonRetryableErrorTypes : List String
  deriving DecidableEq

/-- Retry policy of the book_car and book_hotel calls: only
non_retryable_error_types is set, so maximum_attempts keeps its unbounded
default. -/
def carHotelPolicy : RetryPolicy := ⟨0, ["ValueError"]⟩

/-- Retry policy of the book_flight call: maximum_attempts is
book_input.attempts, non_retryable_error_types is ValueError. -/
def flightPolicy (book_input : BookVacationInput) : RetryPolicy :=
  ⟨book_input.attempts, ["ValueError"]⟩

/-- Retry policy of the compensation calls in the except clause: no policy is
given, so the default applies, with no non-retryable error types and an
unbounded attempt count. -/
def compensationPolicy : RetryPolicy := ⟨0, []⟩

/-- The retry loop of execute_activity.  attempt n is the result of attempt
number n (0 based); the second argument counts completed attempts.  A raise
whose type is in non_retryable_error_types, or that exhausts
maximum_attempts, is terminal and reaches the workflow as an ActivityError;
any other raise is retried.  The first argument is fuel bounding the
modelled loop: none means the loop is still retrying after that many
attempts. -/
def retryLoop (p : RetryPolicy) (attempt : Nat → AttemptResult) :
    Nat → Nat → Option (StepOutcome × Nat)
  | 0, _ => none
  | fuel + 1, n =>
    match attempt n with
    | .ok c => some (.ok c, n + 1)
    | .raise ty msg =>
      if ty ∈ p.nonRetryableErrorTypes ∨
          (p.maximumAttempts ≠ 0 ∧ p.maximumAttempts ≤ n + 1) then
        some (.exn ⟨"ActivityError", ty ++ ": " ++ msg⟩, n + 1)
      else
        retryLoop p attempt fuel (n + 1)

/-- execute_activity under a retry policy: the retry loop started at attempt
0, returning the terminal step outcome and the number of attempts made. -/
def execute_activity (p : RetryPolicy) (attempt : Nat → AttemptResult)
    (fuel : Nat) : Option (StepOutcome × Nat) :=
  retryLoop p attempt fuel 0

/-- An attempt result that the given policy retries: a raise whose type is
not in non_retryable_error_types. -/
def retryableFor (p : RetryPolicy) (a : AttemptResult) : Prop :=
  ∃ ty msg, a = .raise ty msg ∧ ty ∉ p.nonRetryableErrorTypes

/-- Python strings in the gateway model, as lists of characters. -/
abbrev PyString := List Char

/-- Worker loop of Python str.split for a non-empty separator: scan the
string, cutting at each leftmost occurrence of the separator.  The
accumulator holds the characters of the current piece.  The fuel argument
makes the recursion structural; every call consumes at least one character
per unit of fuel, so fuel equal to the string length is enough and the
fuel-exhausted branch is never reached from pySplit. -/
def pySplitGo (sep : PyString) : Nat → PyString → PyString → List PyString
  | _, [], acc => [acc]
  | 0, s, acc => [acc ++ s]
  | fuel + 1, c :: cs, acc =>
    if sep ≠ [] ∧ sep.isPrefixOf (c :: cs) then
      acc :: pySplitGo sep fuel (cs.drop (sep.length - 1)) []
    else
      pySplitGo sep fuel cs (acc ++ [c])

/-- Python s.split(sep) for a non-empty separator. -/
def pySplit (s sep : PyString) : List PyString :=
  pySplitGo sep s.length s []

/-- Python s.strip(): whitespace removed from both ends. -/
def pyStrip (s : PyString) : PyString :=
  ((s.dropWhile Char.isWhitespace).reverse.dropWhile Char.isWhitespace).reverse

/-- Whether sep occurs as a contiguous substring of the string. -/
def containsSub (sep : PyString) : PyString → Bool
  | [] => sep.isEmpty
  | c :: cs => sep.isPrefixOf (c :: cs) || containsSub sep cs

/-- The separator before the car booking in the workflow output. -/
def carMarker : PyString := "Booked car: ".toList

/-- The separator before the hotel booking in the workflow output. -/
def hotelMarker : PyString := "Booked hotel: ".toList

/-- The separator before the flight booking in the workflow output. -/
def flightMarker : PyString := "Booked flight: ".toList

/-- The cancellation marker string returned by BookWorkflow.run. -/
def cancelledText : PyString := "Voyage cancelled".toList

/-- The error message set by the except IndexError clause of book_vacation. -/
def incompleteMessage : PyString :=
  "Incomplete booking results. Please check the booking details.".toList

/-- The try block of the response assembly in book_vacation (run_workflow.py
lines 66 to 82).  Each indexing [1] raises IndexError when the separator does
not occur in the string, modelled by Option; indexing [0] of a split result
always succeeds because split never returns an empty list. -/
def parseBookings (result : PyString) :
    Option (PyString × PyString × PyString) :=
  (pySplit result carMarker)[1]?.bind fun seg1 =>
    let car_booking := pyStrip ((pySplit seg1 hotelMarker).headD [])
    (pySplit result hotelMarker)[1]?.bind fun seg2 =>
      let hotel_booking := pyStrip ((pySplit seg2 flightMarker).headD [])
      (pySplit result flightMarker)[1]?.bind fun seg3 =>
        some (car_booking, hotel_booking, pyStrip seg3)

/-- The JSON response assembled by the book_vacation handler: user_id and
result always, and the optional cancelled, car, hotel, flight and error
fields. -/
structure BookResponse where
  user_id : PyString
  result : PyString
  cancelled : Option Bool
  car : Option PyString
  hotel : Option PyString
  flight : Option PyString
  error : Option PyString
  deriving DecidableEq

/-- Response assembly of the book_vacation handler (run_workflow.py lines 62
to 88): a cancelled result gets cancelled true; otherwise the bookings are
parsed out of the result string, and an IndexError during parsing is caught
and reported through the error field. -/
def book_vacation_response (user_id result : PyString) : BookResponse :=
  if result = cancelledText then
    ⟨user_id, result, some true, none, none, none, none⟩
  else
    match parseBookings result with
    | some (car_booking, hotel_booking, flight_booking) =>
        ⟨user_id, result, some false, some car_booking, some hotel_booking,
          some flight_booking, none⟩
    | none =>
        ⟨user_id, result, none, none, none, none, some incompleteMessage⟩

/-- The result shape named by the spec: the string is literally
"Booked car: ", a car piece, "Booked hotel: ", a hotel piece,
"Booked flight: " and a flight piece, concatenated in that order. -/
def matchesBookedShape (s : PyString) : Prop :=
  ∃ a b c, s = carMarker ++ a ++ hotelMarker ++ b ++ flightMarker ++ c

/-- The first exception raised inside the try block of a run, if any: the
exception of the first forward step with a failing terminal outcome. -/
def firstFailure (env : Env) : Option PyExc :=
  match env.book_car with
  | .exn e => some e
  | .ok _ =>
    match env.book_hotel with
    | .exn e => some e
    | .ok _ =>
      match env.book_flight with
      | .exn e => some e
      | .ok _ => none

/-- Environment in which car and hotel succeed and flight raises a terminal
ValueError wrapped in an ActivityError. -/
def envC1 : Env :=
  ⟨.ok "Booked car: c1 ", .ok "Booked hotel: h1 ",
    .exn ⟨"ActivityError", "ValueError: flight unavailable"⟩⟩

/-- Environment in which all three forward steps succeed. -/
def envC2 : Env := ⟨.ok "Booked car: c1 ", .ok "Booked hotel: h1 ", .ok "Booked flight: f1"⟩

/-- Environment in which the car step raises a terminal ValueError wrapped in
an ActivityError. -/
def envC3 : Env :=
  ⟨.exn ⟨"ActivityError", "ValueError: invalid car"⟩, .ok "Booked hotel: h1 ",
    .ok "Booked flight: f1"⟩

/-- Environment in which the car step fails with an ActivityError. -/
def envC4 : Env := ⟨.exn ⟨"ActivityError", "boom"⟩, .ok "h", .ok "f"⟩

/-- Environment in which all three forward steps succeed. -/
def envC5 : Env := ⟨.ok "Booked car: c1 ", .ok "Booked hotel: h1 ", .ok "Booked flight: f1"⟩

/-- Environment in which all three forward steps succeed. -/
def envC8 : Env := ⟨.ok "a", .ok "b", .ok "c"⟩

/-- Environment in which the car step fails with an exception that is not an
ActivityError. -/
def envC10 : Env := ⟨.exn ⟨"CancelledError", "cancel"⟩, .ok "h", .ok "f"⟩

/-- A concrete workflow input with a flight attempt budget of 2. -/
def inputC6 : BookVacationInput := ⟨"u", "c", "h", "f", 2⟩

/-- An attempt sequence that fails retryably on every attempt. -/
def attemptsC6 : Nat → AttemptResult := fun _ => .raise "TimeoutError" "flight timeout"

/-- A result string that contains all three booking markers, so the handler
parses it without error, but does not match the shape the spec names: it
does not begin with the car marker. -/
def shapeBreaker : PyString :=
  "xBooked car: a Booked hotel: b Booked flight: c".toList

example :
    BookWorkflow_run ⟨.ok "a", .ok "b", .ok "c"⟩ =
      ("abc",
        [.push .undo_book_car, .forward .book_car (.ok "a"),
         .push .undo_book_hotel, .forward .book_hotel (.ok "b"),
         .push .undo_book_flight, .forward .book_flight (.ok "c")]) := by
  decide

example :
    BookWorkflow_run ⟨.ok "a", .ok "b", .exn ⟨"ActivityError", "m"⟩⟩ =
      ("Voyage cancelled",
        [.push .undo_book_car, .forward .book_car (.ok "a"),
         .push .undo_book_hotel, .forward .book_hotel (.ok "b"),
         .push .undo_book_flight, .forward .book_flight (.exn ⟨"ActivityError", "m"⟩),
         .compensate .undo_book_flight, .compensate .undo_book_hotel,
         .compensate .undo_book_car]) := by
  decide

example :
    (BookingWorkflow_run ⟨.exn ⟨"CancelledError", "m"⟩, .ok "b", .ok "c"⟩).1 =
      Except.error ⟨"CancelledError", "m"⟩ := rfl

example :
    parseBookings ("Booked car: C Booked hotel: H Booked flight: F".toList) =
      some ("C".toList, "H".toList, "F".toList) := by decide

example :
    execute_activity (flightPolicy ⟨"u", "c", "h", "f", 2⟩)
        (fun _ => .raise "TimeoutError" "t") 5 =
      some (.exn ⟨"ActivityError", "TimeoutError: t"⟩, 2) := by decide

example :
    execute_activity carHotelPolicy (fun _ => .raise "ValueError" "bad") 5 =
      some (.exn ⟨"ActivityError", "ValueError: bad"⟩, 1) := by decide

example :
    execute_activity carHotelPolicy (fun _ => .raise "TimeoutError" "t") 5 =
      none := by decide

/-- C1 counterexample: in envC1 the car and hotel steps succeed and the
flight step fails terminally, the run returns the cancelled result, but the
compensations invoked are not the two the claim states: undo_book_flight is
also invoked, because BookWorkflow.run appends undo_book_flight to the
compensations list before executing book_flight. -/
theorem C1_counterexample :
    envC1.book_car = .ok "Booked car: c1 " ∧
    envC1.book_hotel = .ok "Booked hotel: h1 " ∧
    (∃ e, envC1.book_flight = .exn e) ∧
    (BookWorkflow_run envC1).1 = "Voyage cancelled" ∧
    compensates (BookWorkflow_run envC1).2 ≠
      [Activity.undo_book_hotel, Activity.undo_book_car] :=
  ⟨rfl, rfl, ⟨_, rfl⟩, by decide, by decide⟩

/-- C1 (amended): for every input on which the car and hotel steps succeed
and the flight step then fails terminally (in particular with a non-retryable
failure), BookWorkflow.run invokes exactly three compensations,
undo_book_flight then undo_book_hotel then undo_book_car, and returns the
cancelled result "Voyage cancelled".  The flight compensation runs even
though book_flight never succeeded, because it is registered before the
flight call. -/
theorem C1_flight_failure_three_compensations (env : Env) (c1 c2 : String)
    (e : PyExc) (h1 : env.book_car = .ok c1) (h2 : env.book_hotel = .ok c2)
    (h3 : env.book_flight = .exn e) :
    (BookWorkflow_run env).1 = "Voyage cancelled" ∧
    compensates (BookWorkflow_run env).2 =
      [Activity.undo_book_flight, Activity.undo_book_hotel,
        Activity.undo_book_car] := by
  refine ⟨?_, ?_⟩ <;>
    simp [BookWorkflow_run, BookTryBody, tryStep, h1, h2, h3, Except.bind,
      compensates, rollbackEvents]

/-- Witness for C1 (amended) at the concrete environment envC1. -/
theorem C1_flight_failure_three_compensations_witness :
    (BookWorkflow_run envC1).1 = "Voyage cancelled" ∧
    compensates (BookWorkflow_run envC1).2 =
      [Activity.undo_book_flight, Activity.undo_book_hotel,
        Activity.undo_book_car] :=
  C1_flight_failure_three_compensations envC1 "Booked car: c1 "
    "Booked hotel: h1 " ⟨"ActivityError", "ValueError: flight unavailable"⟩
    rfl rfl rfl

/-- C2 counterexample: the claimed invariant, that at every point of the run
the compensations list only holds entries for steps whose forward action has
already succeeded, fails on the code: after the first event of the trace of
envC2 the list already holds undo_book_car although no step has succeeded
(book_car has not even been invoked yet). -/
theorem C2_counterexample :
    ¬(∀ n, ∀ c ∈ pushes ((BookWorkflow_run envC2).2.take n),
        stepOf c ∈ succeeded ((BookWorkflow_run envC2).2.take n)) := by
  intro h
  exact absurd (h 1 .undo_book_car (by decide)) (by decide)

/-- C2 (amended): in both workflow variants, a compensation entry is appended
immediately before the corresponding forward step is invoked, not after it
succeeds, and the entries present are exactly the compensations of the steps
invoked so far: the stack can hold an entry for the step currently being
attempted, including one that fails, but never for a step that is never
invoked. -/
theorem C2_push_before_attempt (env : Env) :
    pushes (BookWorkflow_run env).2 =
      (attempted (BookWorkflow_run env).2).map compensationOf ∧
    pushImmediatelyBefore (BookWorkflow_run env).2 = true ∧
    pushes (BookingWorkflow_run env).2 =
      (attempted (BookingWorkflow_run env).2).map compensationOf ∧
    pushImmediatelyBefore (BookingWorkflow_run env).2 = true := by
  obtain ⟨a, b, c⟩ := env
  cases a <;> cases b <;> cases c <;>
    refine ⟨?_, ?_, ?_, ?_⟩ <;>
      simp [BookWorkflow_run, BookingWorkflow_run, BookTryBody,
        BookingTryBody, tryStep, Except.bind, pushes, attempted,
        compensationOf, pushImmediatelyBefore, rollbackEvents] <;>
      split <;> simp [pushes, attempted, compensationOf,
        pushImmediatelyBefore, rollbackEvents]

/-- C3 counterexample: in envC3 the car step fails terminally; the run
returns the cancelled result, but one compensation is invoked rather than the
zero the claim states, because undo_book_car is appended to the compensations
list before book_car executes. -/
theorem C3_counterexample :
    (∃ e, envC3.book_car = .exn e) ∧
    (BookWorkflow_run envC3).1 = "Voyage cancelled" ∧
    compensates (BookWorkflow_run envC3).2 ≠ [] ∧
    compensates (BookWorkflow_run envC3).2 = [Activity.undo_book_car] :=
  ⟨⟨_, rfl⟩, by decide, by decide, by decide⟩

/-- C3 (amended): for every input on which the first step fails terminally
(in particular with a non-retryable failure), BookWorkflow.run invokes
exactly one compensation, undo_book_car, and returns the cancelled result:
the car compensation was registered before the car call, so rollback invokes
it although nothing was committed. -/
theorem C3_car_failure_one_compensation (env : Env) (e : PyExc)
    (h1 : env.book_car = .exn e) :
    (BookWorkflow_run env).1 = "Voyage cancelled" ∧
    compensates (BookWorkflow_run env).2 = [Activity.undo_book_car] := by
  refine ⟨?_, ?_⟩ <;>
    simp [BookWorkflow_run, BookTryBody, tryStep, h1, Except.bind,
      compensates, rollbackEvents]

/-- Witness for C3 (amended) at the concrete environment envC3. -/
theorem C3_car_failure_one_compensation_witness :
    (BookWorkflow_run envC3).1 = "Voyage cancelled" ∧
    compensates (BookWorkflow_run envC3).2 = [Activity.undo_book_car] :=
  C3_car_failure_one_compensation envC3
    ⟨"ActivityError", "ValueError: invalid car"⟩ rfl

/-- C5: for every input on which all three forward steps succeed,
BookWorkflow.run returns the concatenation of the three step confirmations
in the order car, hotel, flight, and no compensation activity is ever
invoked. -/
theorem C5_success_concatenation (env : Env) (c1 c2 c3 : String)
    (h1 : env.book_car = .ok c1) (h2 : env.book_hotel = .ok c2)
    (h3 : env.book_flight = .ok c3) :
    (BookWorkflow_run env).1 = c1 ++ c2 ++ c3 ∧
    compensates (BookWorkflow_run env).2 = [] := by
  refine ⟨?_, ?_⟩ <;>
    simp [BookWorkflow_run, BookTryBody, tryStep, h1, h2, h3, Except.bind,
      compensates]

/-- Witness for C5 at the concrete environment envC5. -/
theorem C5_success_concatenation_witness :
    (BookWorkflow_run envC5).1 =
      "Booked car: c1 " ++ "Booked hotel: h1 " ++ "Booked flight: f1" ∧
    compensates (BookWorkflow_run envC5).2 = [] :=
  C5_success_concatenation envC5 "Booked car: c1 " "Booked hotel: h1 "
    "Booked flight: f1" rfl rfl rfl

/-- C4: when every terminal forward-step failure is an ActivityError, which
is the class execute_activity raises for activity failures, neither run lets
the failure escape: BookingWorkflow.run returns a well-formed result rather
than propagating, and on any forward failure BookWorkflow.run completes the
rollback (invoking every pushed compensation, in reverse) and returns the
cancelled result, while BookingWorkflow.run returns its failure status
result. -/
theorem C4_no_failure_escapes (env : Env)
    (hAE : ∀ e, (env.book_car = .exn e ∨ env.book_hotel = .exn e ∨
        env.book_flight = .exn e) → e.cls = "ActivityError") :
    (∃ r, (BookingWorkflow_run env).1 = Except.ok r) ∧
    ((∃ e, env.book_car = .exn e ∨ env.book_hotel = .exn e ∨
        env.book_flight = .exn e) →
      (BookWorkflow_run env).1 = "Voyage cancelled" ∧
      compensates (BookWorkflow_run env).2 =
        (pushes (BookWorkflow_run env).2).reverse ∧
      ∃ msg, (BookingWorkflow_run env).1 = Except.ok (.failure msg)) := by
  obtain ⟨a, b, c⟩ := env
  cases a with
  | exn e =>
      have hcls : e.cls = "ActivityError" := hAE e (Or.inl rfl)
      refine ⟨⟨.failure (pyStr e), ?_⟩, fun _ => ⟨?_, ?_, ⟨pyStr e, ?_⟩⟩⟩ <;>
        simp [BookingWorkflow_run, BookWorkflow_run, BookingTryBody,
          BookTryBody, tryStep, Except.bind, hcls, compensates, pushes,
          rollbackEvents]
  | ok c1 =>
      cases b with
      | exn e =>
          have hcls : e.cls = "ActivityError" := hAE e (Or.inr (Or.inl rfl))
          refine ⟨⟨.failure (pyStr e), ?_⟩, fun _ => ⟨?_, ?_, ⟨pyStr e, ?_⟩⟩⟩ <;>
            simp [BookingWorkflow_run, BookWorkflow_run, BookingTryBody,
              BookTryBody, tryStep, Except.bind, hcls, compensates, pushes,
              rollbackEvents]
      | ok c2 =>
          cases c with
          | exn e =>
              have hcls : e.cls = "ActivityError" :=
                hAE e (Or.inr (Or.inr rfl))
              refine ⟨⟨.failure (pyStr e), ?_⟩,
                  fun _ => ⟨?_, ?_, ⟨pyStr e, ?_⟩⟩⟩ <;>
                simp [BookingWorkflow_run, BookWorkflow_run, BookingTryBody,
                  BookTryBody, tryStep, Except.bind, hcls, compensates,
                  pushes, rollbackEvents]
          | ok c3 =>
              refine ⟨⟨.success (c1 ++ c2 ++ c3), ?_⟩, ?_⟩
              · simp [BookingWorkflow_run, BookingTryBody, tryStep,
                  Except.bind]
              · rintro ⟨e, he | he | he⟩ <;> simp at he

/-- Witness for C4 at the concrete environment envC4. -/
theorem C4_no_failure_escapes_witness :
    (∃ r, (BookingWorkflow_run envC4).1 = Except.ok r) ∧
    ((∃ e, envC4.book_car = .exn e ∨ envC4.book_hotel = .exn e ∨
        envC4.book_flight = .exn e) →
      (BookWorkflow_run envC4).1 = "Voyage cancelled" ∧
      compensates (BookWorkflow_run envC4).2 =
        (pushes (BookWorkflow_run envC4).2).reverse ∧
      ∃ msg, (BookingWorkflow_run envC4).1 = Except.ok (.failure msg)) := by
  apply C4_no_failure_escapes
  intro e h
  rcases h with h | h | h
  · injection (show StepOutcome.exn ⟨"ActivityError", "boom"⟩ = .exn e from h)
      with h2
    rw [← h2]
  · exact absurd (show StepOutcome.ok "h" = .exn e from h) (by simp)
  · exact absurd (show StepOutcome.ok "f" = .exn e from h) (by simp)

/-- C7: in every execution of BookWorkflow.run the trace splits into a
forward part followed by a rollback part: the forward part holds no
compensation call and its forward invocations follow the fixed order car,
hotel, flight; the rollback part is either empty or exactly one pass over the
pushed compensations in reverse (LIFO) order of their pushes. -/
theorem C7_sequential_then_lifo_rollback (env : Env) :
    ∃ fpart cpart,
      (BookWorkflow_run env).2 = fpart ++ cpart ∧
      (∀ e ∈ fpart, isCompEvent e = false) ∧
      attempted fpart ∈ [[Activity.book_car],
        [Activity.book_car, Activity.book_hotel],
        [Activity.book_car, Activity.book_hotel, Activity.book_flight]] ∧
      (cpart = [] ∨ cpart = rollbackEvents (pushes fpart)) := by
  obtain ⟨a, b, c⟩ := env
  cases a with
  | exn e =>
      refine ⟨[.push .undo_book_car, .forward .book_car (.exn e)],
        [.compensate .undo_book_car], ?_, ?_, ?_, Or.inr ?_⟩ <;>
        simp [BookWorkflow_run, BookTryBody, tryStep, Except.bind,
          isCompEvent, attempted, pushes, rollbackEvents]
  | ok c1 =>
      cases b with
      | exn e =>
          refine ⟨[.push .undo_book_car, .forward .book_car (.ok c1),
              .push .undo_book_hotel, .forward .book_hotel (.exn e)],
            [.compensate .undo_book_hotel, .compensate .undo_book_car],
            ?_, ?_, ?_, Or.inr ?_⟩ <;>
            simp [BookWorkflow_run, BookTryBody, tryStep, Except.bind,
              isCompEvent, attempted, pushes, rollbackEvents]
      | ok c2 =>
          cases c with
          | exn e =>
              refine ⟨[.push .undo_book_car, .forward .book_car (.ok c1),
                  .push .undo_book_hotel, .forward .book_hotel (.ok c2),
                  .push .undo_book_flight, .forward .book_flight (.exn e)],
                [.compensate .undo_book_flight, .compensate .undo_book_hotel,
                  .compensate .undo_book_car], ?_, ?_, ?_, Or.inr ?_⟩ <;>
                simp [BookWorkflow_run, BookTryBody, tryStep, Except.bind,
                  isCompEvent, attempted, pushes, rollbackEvents]
          | ok c3 =>
              refine ⟨[.push .undo_book_car, .forward .book_car (.ok c1),
                  .push .undo_book_hotel, .forward .book_hotel (.ok c2),
                  .push .undo_book_flight, .forward .book_flight (.ok c3)],
                [], ?_, ?_, ?_, Or.inl rfl⟩ <;>
                simp [BookWorkflow_run, BookTryBody, tryStep, Except.bind,
                  isCompEvent, attempted, pushes, rollbackEvents]

/-- C8 counterexample: on an input where all three steps are invoked, the
traces of the two variants are identical, and in them every compensation push
sits immediately before the matching forward invocation: there is no step for
which one variant registers the compensation only after the step succeeds. -/
theorem C8_counterexample :
    (BookWorkflow_run envC8).2 =
      [Event.push .undo_book_car, .forward .book_car (.ok "a"),
       .push .undo_book_hotel, .forward .book_hotel (.ok "b"),
       .push .undo_book_flight, .forward .book_flight (.ok "c")] ∧
    (BookingWorkflow_run envC8).2 = (BookWorkflow_run envC8).2 ∧
    pushImmediatelyBefore (BookWorkflow_run envC8).2 = true :=
  ⟨by decide, by decide, by decide⟩

/-- C8 (amended): the two workflow variants do not differ in when a
compensation is registered: on every input both push each compensation
immediately before invoking the matching forward action, never only after it
succeeds, and their push and forward event sequences are identical.  The
variants differ instead in which exceptions trigger rollback and in the
shape of the failure result. -/
theorem C8_variants_agree_on_push_timing (env : Env) :
    pushForwardEvents (BookingWorkflow_run env).2 =
      pushForwardEvents (BookWorkflow_run env).2 ∧
    pushImmediatelyBefore (pushForwardEvents (BookWorkflow_run env).2) =
      true ∧
    pushImmediatelyBefore (pushForwardEvents (BookingWorkflow_run env).2) =
      true := by
  obtain ⟨a, b, c⟩ := env
  cases a <;> cases b <;> cases c <;> refine ⟨?_, ?_, ?_⟩ <;>
    simp [BookWorkflow_run, BookingWorkflow_run, BookTryBody, BookingTryBody,
      tryStep, Except.bind, pushForwardEvents, isCompEvent,
      pushImmediatelyBefore, rollbackEvents, compensationOf] <;>
    split <;>
    simp [pushForwardEvents, isCompEvent, pushImmediatelyBefore,
      rollbackEvents, compensationOf]

/-- C10: in BookingWorkflow.run, a forward-step failure whose exception class
is not ActivityError is not caught: no compensation is invoked and the
exception propagates out of run instead of being converted into a failure
result. -/
theorem C10_non_activity_error_propagates (env : Env) (e : PyExc)
    (h : firstFailure env = some e) (hcls : e.cls ≠ "ActivityError") :
    (BookingWorkflow_run env).1 = Except.error e ∧
    compensates (BookingWorkflow_run env).2 = [] := by
  obtain ⟨a, b, c⟩ := env
  cases a with
  | exn e1 =>
      simp [firstFailure] at h
      subst h
      refine ⟨?_, ?_⟩ <;>
        simp [BookingWorkflow_run, BookingTryBody, tryStep, Except.bind,
          hcls, compensates]
  | ok c1 =>
      cases b with
      | exn e1 =>
          simp [firstFailure] at h
          subst h
          refine ⟨?_, ?_⟩ <;>
            simp [BookingWorkflow_run, BookingTryBody, tryStep, Except.bind,
              hcls, compensates]
      | ok c2 =>
          cases c with
          | exn e1 =>
              simp [firstFailure] at h
              subst h
              refine ⟨?_, ?_⟩ <;>
                simp [BookingWorkflow_run, BookingTryBody, tryStep,
                  Except.bind, hcls, compensates]
          | ok c3 => simp [firstFailure] at h

/-- Witness for C10 at the concrete environment envC10. -/
theorem C10_non_activity_error_propagates_witness :
    (BookingWorkflow_run envC10).1 =
      Except.error ⟨"CancelledError", "cancel"⟩ ∧
    compensates (BookingWorkflow_run envC10).2 = [] :=
  C10_non_activity_error_propagates envC10 ⟨"CancelledError", "cancel"⟩ rfl
    (by decide)

/-- A retry loop over a policy with a non-zero maximum attempt count, fed
only retryable failures, stops after exactly maximumAttempts attempts with a
terminal ActivityError. -/
theorem retryLoop_exhausts (p : RetryPolicy) (f : Nat → AttemptResult)
    (hA : p.maximumAttempts ≠ 0) (hf : ∀ n, retryableFor p (f n)) :
    ∀ fuel n, n < p.maximumAttempts → p.maximumAttempts ≤ n + fuel →
      ∃ e, retryLoop p f fuel n = some (.exn e, p.maximumAttempts) := by
  intro fuel
  induction fuel with
  | zero => intro n h1 h2; omega
  | succ fuel ih =>
    intro n h1 h2
    obtain ⟨ty, msg, hfn, hty⟩ := hf n
    rcases Nat.lt_or_ge (n + 1) p.maximumAttempts with hend | hend
    · obtain ⟨e, he⟩ := ih (n + 1) hend (by omega)
      refine ⟨e, ?_⟩
      simp only [retryLoop, hfn]
      rw [if_neg]
      · exact he
      · rintro (hmem | ⟨_, hle⟩)
        · exact hty hmem
        · omega
    · have hn1 : p.maximumAttempts = n + 1 := by omega
      refine ⟨⟨"ActivityError", ty ++ ": " ++ msg⟩, ?_⟩
      simp only [retryLoop, hfn]
      rw [if_pos (Or.inr ⟨hA, by omega⟩), hn1]

/-- A retry loop over a policy with an unbounded attempt count, fed only
retryable failures, never reaches a terminal outcome. -/
theorem retryLoop_unbounded (p : RetryPolicy) (f : Nat → AttemptResult)
    (hA : p.maximumAttempts = 0) (hf : ∀ n, retryableFor p (f n)) :
    ∀ fuel n, retryLoop p f fuel n = none := by
  intro fuel
  induction fuel with
  | zero => intro n; rfl
  | succ fuel ih =>
    intro n
    obtain ⟨ty, msg, hfn, hty⟩ := hf n
    simp only [retryLoop, hfn]
    rw [if_neg]
    · exact ih (n + 1)
    · rintro (hmem | ⟨hne, _⟩)
      · exact hty hmem
      · exact hne hA

/-- C6: the flight retry policy bounds the attempt count by
book_input.attempts, and when every flight attempt fails retryably the
flight activity is invoked exactly book_input.attempts times before the
terminal failure that starts rollback; the car and hotel policy leaves
maximum_attempts at its unbounded default, so under ever-retryable failures
those steps never reach a terminal outcome and keep retrying. -/
theorem C6_flight_bounded_car_hotel_unbounded
    (book_input : BookVacationInput) (hA : 1 ≤ book_input.attempts)
    (f : Nat → AttemptResult)
    (hf : ∀ n, retryableFor (flightPolicy book_input) (f n))
    (fuel : Nat) (hfuel : book_input.attempts ≤ fuel) :
    (flightPolicy book_input).maximumAttempts = book_input.attempts ∧
    (∃ e, execute_activity (flightPolicy book_input) f fuel =
        some (.exn e, book_input.attempts)) ∧
    carHotelPolicy.maximumAttempts = 0 ∧
    (∀ g : Nat → AttemptResult, (∀ n, retryableFor carHotelPolicy (g n)) →
      ∀ fuel2, execute_activity carHotelPolicy g fuel2 = none) := by
  refine ⟨rfl, ?_, rfl, ?_⟩
  · have hm : (flightPolicy book_input).maximumAttempts = book_input.attempts :=
      rfl
    exact hm ▸ retryLoop_exhausts (flightPolicy book_input) f
      (by rw [hm]; omega) hf fuel 0 (by rw [hm]; omega) (by rw [hm]; omega)
  · intro g hg fuel2
    exact retryLoop_unbounded carHotelPolicy g rfl hg fuel2 0

/-- Witness for C6 at a concrete input with a budget of two attempts. -/
theorem C6_flight_bounded_car_hotel_unbounded_witness :
    (flightPolicy inputC6).maximumAttempts = inputC6.attempts ∧
    (∃ e, execute_activity (flightPolicy inputC6) attemptsC6 2 =
        some (.exn e, inputC6.attempts)) ∧
    carHotelPolicy.maximumAttempts = 0 ∧
    (∀ g : Nat → AttemptResult, (∀ n, retryableFor carHotelPolicy (g n)) →
      ∀ fuel2, execute_activity carHotelPolicy g fuel2 = none) :=
  C6_flight_bounded_car_hotel_unbounded inputC6 (by decide) attemptsC6
    (fun _ => ⟨"TimeoutError", "flight timeout", rfl, by decide⟩) 2
    (by decide)

/-- The split worker never returns an empty list. -/
theorem pySplitGo_ne_nil (sep : PyString) :
    ∀ fuel s acc, pySplitGo sep fuel s acc ≠ [] := by
  intro fuel
  induction fuel with
  | zero =>
      intro s acc
      cases s <;> simp [pySplitGo]
  | succ fuel ih =>
      intro s acc
      cases s with
      | nil => simp [pySplitGo]
      | cons c cs =>
          simp only [pySplitGo]
          split
          · simp
          · exact ih cs (acc ++ [c])

/-- With enough fuel, the split worker returns at least two pieces exactly
when the separator occurs in the string. -/
theorem pySplitGo_two_iff (sep : PyString) (hsep : sep ≠ []) :
    ∀ fuel s acc, s.length ≤ fuel →
      (2 ≤ (pySplitGo sep fuel s acc).length ↔ containsSub sep s = true) := by
  have hie : sep.isEmpty = false := by
    cases sep
    · exact absurd rfl hsep
    · rfl
  intro fuel
  induction fuel with
  | zero =>
      intro s acc hlen
      have hs : s = [] := List.length_eq_zero.mp (Nat.le_zero.mp hlen)
      subst hs
      simp [pySplitGo, containsSub, hie]
  | succ fuel ih =>
      intro s acc hlen
      cases s with
      | nil => simp [pySplitGo, containsSub, hie]
      | cons c cs =>
          simp only [pySplitGo]
          split
          · rename_i hcond
            have h1 : pySplitGo sep fuel (cs.drop (sep.length - 1)) [] ≠ [] :=
              pySplitGo_ne_nil sep fuel _ []
            have h2 : 0 < (pySplitGo sep fuel (cs.drop (sep.length - 1)) []).length :=
              List.length_pos.mpr h1
            simp [containsSub, hcond.2]
            omega
          · rename_i hcond
            have hpf : sep.isPrefixOf (c :: cs) = false := by
              cases hpfv : sep.isPrefixOf (c :: cs)
              · rfl
              · exact absurd ⟨hsep, hpfv⟩ hcond
            have hlen2 : cs.length ≤ fuel := by
              simp at hlen
              omega
            rw [ih cs (acc ++ [c]) hlen2]
            simp [containsSub, hpf]

/-- Python split returns at least two pieces exactly when the separator
occurs in the string. -/
theorem pySplit_two_iff (s sep : PyString) (hsep : sep ≠ []) :
    2 ≤ (pySplit s sep).length ↔ containsSub sep s = true :=
  pySplitGo_two_iff sep hsep s.length s [] le_rfl

/-- Indexing [1] of a list succeeds exactly when it has at least two
entries. -/
theorem get_one_isSome (l : List PyString) :
    l[1]?.isSome = true ↔ 2 ≤ l.length := by
  cases l with
  | nil => simp
  | cons a t =>
      cases t with
      | nil => simp
      | cons b t2 => simp

/-- The parse of the try block succeeds exactly when all three booking
markers occur in the result string. -/
theorem parseBookings_isSome_iff (result : PyString) :
    (parseBookings result).isSome = true ↔
      (containsSub carMarker result = true ∧
       containsSub hotelMarker result = true ∧
       containsSub flightMarker result = true) := by
  rw [← pySplit_two_iff result carMarker (by decide),
    ← pySplit_two_iff result hotelMarker (by decide),
    ← pySplit_two_iff result flightMarker (by decide),
    ← get_one_isSome, ← get_one_isSome, ← get_one_isSome]
  rcases h1 : (pySplit result carMarker)[1]? with _ | s1 <;>
    rcases h2 : (pySplit result hotelMarker)[1]? with _ | s2 <;>
      rcases h3 : (pySplit result flightMarker)[1]? with _ | s3 <;>
        simp [parseBookings, h1, h2, h3]

/-- C9 counterexample: shapeBreaker is a result string that does not match
the booked shape the claim names (it does not even begin with the car
marker), yet the handler parses it without error: the response carries no
incomplete-result error message and reports cancelled false.  The handler
reports the error only when one of the three markers is absent, not whenever
the string fails to match the shape. -/
theorem C9_counterexample :
    shapeBreaker ≠ cancelledText ∧
    ¬matchesBookedShape shapeBreaker ∧
    (book_vacation_response ("u".toList) shapeBreaker).error = none ∧
    (book_vacation_response ("u".toList) shapeBreaker).cancelled =
      some false := by
  refine ⟨by decide, ?_, by decide, by decide⟩
  intro hsh
  obtain ⟨a, b, c, heq⟩ := hsh
  have hB : shapeBreaker.head? = some 'B' := by rw [heq]; rfl
  rw [show shapeBreaker.head? = some 'x' from rfl] at hB
  exact absurd hB (by decide)

/-- C9 (amended): for every result string other than the cancellation
marker, the handler returns a well-formed response whose error field is the
incomplete-result message exactly when one of the three booking markers does
not occur in the string; a string containing all three markers is parsed and
returned without error even when it does not match the booked shape, and in
no case does the handler raise. -/
theorem C9_error_iff_missing_marker (user_id result : PyString)
    (h : result ≠ cancelledText) :
    ((book_vacation_response user_id result).error.isSome = true ↔
      ¬(containsSub carMarker result = true ∧
        containsSub hotelMarker result = true ∧
        containsSub flightMarker result = true)) ∧
    ((book_vacation_response user_id result).error = none ∨
      (book_vacation_response user_id result).error = some incompleteMessage) := by
  have hp := parseBookings_isSome_iff result
  rcases hq : parseBookings result with _ | trip
  · rw [hq] at hp
    simp only [Option.isSome_none, Bool.false_eq_true, false_iff] at hp
    refine ⟨?_, Or.inr ?_⟩ <;>
      simp [book_vacation_response, h, hq, hp]
  · rw [hq] at hp
    simp only [Option.isSome_some, true_iff] at hp
    obtain ⟨ca, ho, fl⟩ := trip
    refine ⟨?_, Or.inl ?_⟩ <;>
      simp [book_vacation_response, h, hq, hp]

/-- Witness for C9 (amended) at a concrete non-cancelled result string. -/
theorem C9_error_iff_missing_marker_witness :
    (((book_vacation_response ("u".toList) ("oops".toList)).error.isSome =
        true) ↔
      ¬(containsSub carMarker ("oops".toList) = true ∧
        containsSub hotelMarker ("oops".toList) = true ∧
        containsSub flightMarker ("oops".toList) = true)) ∧
    ((book_vacation_response ("u".toList) ("oops".toList)).error = none ∨
      (book_vacation_response ("u".toList) ("oops".toList)).error =
        some incompleteMessage) :=
  C9_error_iff_missing_marker ("u".toList) ("oops".toList) (by decide)

end Saga
